import Mathlib

/-!
Verification of the RoadSafetyGPT retrieval-and-ranking core against its
specification.  The Python sources (`utils.py`, `main.py`) are shallowly
embedded: Python strings are Lean `String`s, Python dicts holding catalog
records are association lists over a small `Value` type, machine integers are
`Nat` (every score in the code is non-negative), fallible external calls
(PDF loading, vector-store search, the Groq chat completion) are `Except`
values supplied as parameters.
-/

/-! ## Python string primitives -/

/-- Whether the character list `pat` is a prefix of `l` (Python startswith on
char lists). -/
def charsStart (pat : List Char) (l : List Char) : Bool :=
  match pat, l with
  | [], _ => true
  | _ :: _, [] => false
  | a :: as, b :: bs => a == b && charsStart as bs

/-- Whether `pat` occurs contiguously inside `l`. -/
def charsSub (pat : List Char) (l : List Char) : Bool :=
  match l with
  | [] => charsStart pat []
  | _ :: bs => charsStart pat l || charsSub pat bs

/-- Python `pat in hay` on strings: contiguous-substring test (the empty
string is a substring of everything, as in Python). -/
def strContains (hay pat : String) : Bool :=
  charsSub pat.data hay.data

/-- Python `s.lower()` (ASCII case folding, which is all the sources use). -/
def pyLower (s : String) : String :=
  String.mk (s.data.map Char.toLower)

/-- Accumulator pass behind `pySplit`: `cur` holds the current word reversed. -/
def pySplitAux : List Char → List Char → List String
  | [], cur => if cur.isEmpty then [] else [String.mk cur.reverse]
  | c :: cs, cur =>
    if c.isWhitespace then
      if cur.isEmpty then pySplitAux cs [] else String.mk cur.reverse :: pySplitAux cs []
    else pySplitAux cs (c :: cur)

/-- Python `s.split()` with no argument: split on runs of whitespace,
discarding empty pieces. -/
def pySplit (s : String) : List String :=
  pySplitAux s.data []

/-- Python `sep.join(pieces)`. -/
def pyJoin (sep : String) : List String → String
  | [] => ""
  | [s] => s
  | s :: rest => s ++ sep ++ pyJoin sep rest

/-! ## Python dicts (catalog records)

`data/interventions.json` holds an array of objects whose values are strings
or lists of strings; `generate_response` additionally stores the integer
`priority_score`.  A dict is an association list in insertion order, which is
exactly the order Python dicts preserve. -/

/-- A JSON-ish value as the catalog and the response dicts use them. -/
inductive Value where
  | str : String → Value
  | nat : Nat → Value
  | strList : List String → Value
deriving DecidableEq

/-- A Python dict with string keys, in insertion order. -/
abbrev Dict : Type := List (String × Value)

/-- Python `d[key]` as an option (first binding wins; dict keys are unique). -/
def dictGet (d : Dict) (key : String) : Option Value :=
  match d with
  | [] => none
  | p :: rest => if p.1 == key then some p.2 else dictGet rest key

/-- Python `d.get(key, "")` for a string-valued field. -/
def getStr (d : Dict) (key : String) : String :=
  match dictGet d key with
  | some (Value.str s) => s
  | _ => ""

/-- Python `d.get(key, [])` for a string-list field (`keywords`). -/
def getStrList (d : Dict) (key : String) : List String :=
  match dictGet d key with
  | some (Value.strList l) => l
  | _ => []

/-- Python `d.copy()`: a new dict with the same bindings; writing to the copy
leaves the original untouched, which the pure embedding renders as the
identity on the value. -/
def dictCopy (d : Dict) : Dict := d

/-- Python `d[key] = v`: overwrite the binding in place when the key exists
(its position is preserved), append a new binding otherwise. -/
def dictSet (d : Dict) (key : String) (v : Value) : Dict :=
  match d with
  | [] => [(key, v)]
  | p :: rest => if p.1 == key then (key, v) :: rest else p :: dictSet rest key v

/-! ## utils.py: calculate_intervention_score -/

/-- The fixed high-priority term list of `calculate_intervention_score`. -/
def high_priority_keywords : List String :=
  ["blackspot", "fatal", "death", "crash", "accident", "emergency", "urgent"]

/-- The fixed medium-priority term list of `calculate_intervention_score`. -/
def medium_keywords : List String :=
  ["pedestrian", "school", "intersection", "curve", "night", "visibility"]

/-- `utils.calculate_intervention_score(intervention, query)`, line for line:
base 50; +20 once when any high-priority term occurs in the lower-cased query
(the loop breaks at the first hit); +5 per medium-priority term occurring in
the query; +3 per intervention keyword occurring in the query; +2 per distinct
query word longer than 3 characters occurring in the lower-cased context
(Python builds a `set` of the words, so duplicates count once); clamped into
[1, 100]. -/
def calculate_intervention_score (intervention : Dict) (query : String) : Nat :=
  let query_lower := pyLower query
  let score := 50
  let score := if high_priority_keywords.any (fun kw => strContains query_lower kw) then
    score + 20 else score
  let medium_matches := medium_keywords.countP (fun kw => strContains query_lower kw)
  let score := score + medium_matches * 5
  let intervention_keywords := getStrList intervention "keywords"
  let keyword_matches := intervention_keywords.countP (fun kw => strContains query_lower kw)
  let score := score + keyword_matches * 3
  let context := pyLower (getStr intervention "context")
  let context_words := ((pySplit query_lower).filter (fun w => 3 < w.length)).dedup
  let context_matches := context_words.countP (fun w => strContains context w)
  let score := score + context_matches * 2
  min 100 (max 1 score)

/-- The priority-score computation exactly as claim C1 words it: the query is
lower-cased, but the +2 context matches test each query word against the
intervention's `context` field as given (the claim never lower-cases the
context).  Written from the claim, to be compared with
`calculate_intervention_score`. -/
def priority_score_claimed (intervention : Dict) (query : String) : Nat :=
  let q := pyLower query
  let highBonus := if high_priority_keywords.any (fun kw => strContains q kw) then 20 else 0
  let mediumBonus := 5 * medium_keywords.countP (fun kw => strContains q kw)
  let keywordBonus := 3 * (getStrList intervention "keywords").countP (fun kw => strContains q kw)
  let contextBonus := 2 * (((pySplit q).filter (fun w => 3 < w.length)).dedup.countP
    (fun w => strContains (getStr intervention "context") w))
  min 100 (max 1 (50 + highBonus + mediumBonus + keywordBonus + contextBonus))

/-- The amended C1 computation: as `priority_score_claimed` but the +2 context
matches are tested against the lower-cased context, the way the code does. -/
def priority_score_amended (intervention : Dict) (query : String) : Nat :=
  let q := pyLower query
  let highBonus := if high_priority_keywords.any (fun kw => strContains q kw) then 20 else 0
  let mediumBonus := 5 * medium_keywords.countP (fun kw => strContains q kw)
  let keywordBonus := 3 * (getStrList intervention "keywords").countP (fun kw => strContains q kw)
  let contextBonus := 2 * (((pySplit q).filter (fun w => 3 < w.length)).dedup.countP
    (fun w => strContains (pyLower (getStr intervention "context")) w))
  min 100 (max 1 (50 + highBonus + mediumBonus + keywordBonus + contextBonus))

/-! ## main.py: RoadSafetyRAG.search_interventions -/

/-- The per-record relevance score computed inside
`RoadSafetyRAG.search_interventions`: +2 for every keyword whose lower-cased
form occurs in the lower-cased query, +1 once when any query word longer than
3 characters occurs in the lower-cased context, and +1 once again for the
lower-cased intervention name. -/
def match_score (intervention : Dict) (query : String) : Nat :=
  let query_lower := pyLower query
  let keywords := getStrList intervention "keywords"
  let context := pyLower (getStr intervention "context")
  let intervention_name := pyLower (getStr intervention "intervention")
  let score := 0
  let score := score + 2 * keywords.countP (fun kw => strContains query_lower (pyLower kw))
  let qWords := (pySplit query_lower).filter (fun w => 3 < w.length)
  let score := score + (if qWords.any (fun w => strContains context w) then 1 else 0)
  let score := score + (if qWords.any (fun w => strContains intervention_name w) then 1 else 0)
  score

/-- The relevance score exactly as claim C2 words it: each keyword is tested
against the lower-cased query as given (the claim never lower-cases the
keyword itself).  Written from the claim, to be compared with
`match_score`. -/
def match_score_claimed (intervention : Dict) (query : String) : Nat :=
  let q := pyLower query
  let qWords := (pySplit q).filter (fun w => 3 < w.length)
  2 * (getStrList intervention "keywords").countP (fun kw => strContains q kw)
    + (if qWords.any (fun w => strContains (pyLower (getStr intervention "context")) w) then 1 else 0)
    + (if qWords.any (fun w => strContains (pyLower (getStr intervention "intervention")) w) then 1 else 0)

/-- The amended C2 score: as `match_score_claimed` but each keyword is
lower-cased before the substring test, the way the code does. -/
def match_score_amended (intervention : Dict) (query : String) : Nat :=
  let q := pyLower query
  let qWords := (pySplit q).filter (fun w => 3 < w.length)
  2 * (getStrList intervention "keywords").countP (fun kw => strContains q (pyLower kw))
    + (if qWords.any (fun w => strContains (pyLower (getStr intervention "context")) w) then 1 else 0)
    + (if qWords.any (fun w => strContains (pyLower (getStr intervention "intervention")) w) then 1 else 0)

/-- One step of the stable descending sort: insert `a` in front of the first
element whose score is no larger.  Among equal scores the inserted (earlier)
element lands first, which is exactly Python's stable
`sort(key=lambda x: x[0], reverse=True)`. -/
def insertDescByScore {α : Type} (a : Nat × α) : List (Nat × α) → List (Nat × α)
  | [] => [a]
  | b :: l => if b.1 ≤ a.1 then a :: b :: l else b :: insertDescByScore a l

/-- Stable descending sort by the first component, the extensional behaviour
of Python's stable list.sort with `key=lambda x: x[0], reverse=True`. -/
def sortDescByScore {α : Type} : List (Nat × α) → List (Nat × α)
  | [] => []
  | a :: l => insertDescByScore a (sortDescByScore l)

/-- `RoadSafetyRAG.search_interventions(query, top_k=3)`: score every catalog
record, keep the strictly positive ones in catalog order, sort them by score
descending (stable), return the records of the first `top_k`. -/
def search_interventions (interventions : List Dict) (query : String)
    (top_k : Nat := 3) : List Dict :=
  let scored_interventions :=
    (interventions.map (fun inv => (match_score inv query, inv))).filter (fun p => 0 < p.1)
  ((sortDescByScore scored_interventions).take top_k).map Prod.snd

/-- The same pipeline carrying each record's catalog position through the
sort, used to state order and stability of `search_interventions`. -/
def search_indexed (interventions : List Dict) (query : String) :
    List (Nat × Nat × Dict) :=
  sortDescByScore
    ((interventions.enum.map (fun p => (match_score p.2 query, p))).filter (fun p => 0 < p.1))

/-! ## main.py: documents, the vector store and the knowledge base -/

/-- A LangChain document chunk: its text and the `source` entry of its
metadata (the PDF file name the loader tagged it with). -/
structure Document where
  page_content : String
  source : String
deriving DecidableEq

/-- The similarity-search capability of a built Chroma store: a query and a
`k` yield the nearest chunks, or fail like the library call can. -/
abbrev VectorStore : Type := String → Nat → Except String (List Document)

/-- `RoadSafetyRAG.process_pdfs`: `pdf_loads` pairs each PDF file name of the
data directory with its `PyPDFLoader.load()` outcome.  A failing load is
logged and skipped; the documents of a successful load are tagged with the
file name; finally `text_splitter.split_documents` (the `split_documents`
parameter) chunks the concatenation. -/
def process_pdfs (split_documents : List Document → List Document)
    (pdf_loads : List (String × Except String (List Document))) : List Document :=
  let all_documents := pdf_loads.foldl
    (fun acc p =>
      match p.2 with
      | Except.ok documents => acc ++ documents.map (fun d => { d with source := p.1 })
      | Except.error _ => acc)
    []
  split_documents all_documents

/-- `RoadSafetyRAG.build_knowledge_base(force_rebuild)`.  `chroma_db_nonempty`
is the `CHROMA_DB_DIR.exists() and any(CHROMA_DB_DIR.rglob("*"))` test,
`from_documents` the `Chroma.from_documents` capability, `load_existing` the
outcome of loading a persisted store, and `vectorstore0` the handle held
before the call (it is left as it was on the failure paths).  Returns the
boolean result of the Python method together with `self.vectorstore` after
the call. -/
def build_knowledge_base (split_documents : List Document → List Document)
    (pdf_loads : List (String × Except String (List Document)))
    (from_documents : List Document → VectorStore)
    (load_existing : Except String VectorStore)
    (chroma_db_nonempty : Bool) (vectorstore0 : Option VectorStore)
    (force_rebuild : Bool) : Bool × Option VectorStore :=
  if force_rebuild || !chroma_db_nonempty then
    let documents := process_pdfs split_documents pdf_loads
    if documents.isEmpty then (false, vectorstore0)
    else (true, some (from_documents documents))
  else
    match load_existing with
    | Except.ok vs => (true, some vs)
    | Except.error _ => (false, vectorstore0)

/-- `RoadSafetyRAG.retrieve_relevant_chunks(query, top_k=4)`: empty when no
vector store has been built, the similarity-search result otherwise, and
empty again when that call raises (the except branch logs and returns []). -/
def retrieve_relevant_chunks (vectorstore : Option VectorStore) (query : String)
    (top_k : Nat := 4) : List Document :=
  match vectorstore with
  | none => []
  | some vs =>
    match vs query top_k with
    | Except.ok docs => docs
    | Except.error _ => []

/-! ## main.py: GroqLLM and generate_response -/

/-- `GroqLLM.__call__`: `api` is the outbound
`client.chat.completions.create` call for a given user prompt (the system
prompt, model name and sampling options are fixed inside it), returning the
completion text or raising.  Any exception is caught and rendered as the
error string the method returns. -/
def groq_llm_call (api : String → Except String String) (prompt : String) : String :=
  match api prompt with
  | Except.ok content => content
  | Except.error e => "Error calling Groq API: " ++ e

/-- The `context_text` block of `RoadSafetyRAG.generate_response`. -/
def context_text (relevant_chunks : List Document) : String :=
  pyJoin "\n\n" (relevant_chunks.map
    (fun doc => "[Source: " ++ doc.source ++ "]\n" ++ doc.page_content))

/-- The `interventions_text` block of `RoadSafetyRAG.generate_response`. -/
def interventions_text (matched_interventions : List Dict) : String :=
  pyJoin "\n" (matched_interventions.map
    (fun inv => "- " ++ getStr inv "intervention" ++ ": " ++ getStr inv "context"
      ++ " (Source: " ++ getStr inv "source" ++ ")"))

/-- The f-string prompt of `RoadSafetyRAG.generate_response`. -/
def build_prompt (query : String) (relevant_chunks : List Document)
    (matched_interventions : List Dict) : String :=
  "You are an expert road safety engineer. A user has described a road safety problem. Based on the provided context from official documents and suggested interventions, provide a structured recommendation.\n\nUser's Problem Description:\n"
    ++ query
    ++ "\n\nRelevant Context from Documents:\n"
    ++ context_text relevant_chunks
    ++ "\n\nSuggested Interventions from Database:\n"
    ++ interventions_text matched_interventions
    ++ "\n\nPlease provide:\n1. **Recommended Interventions**: List 3-5 specific interventions that address the problem\n2. **Rationale**: Explain why each intervention is suitable\n3. **References**: Mention document names and clauses where applicable\n4. **Expected Impact**: Brief description of expected safety improvements\n\nFormat your response in a clear, structured manner."

/-- The one prompt `generate_response` sends for a query, as a function of
the same inputs. -/
def generate_prompt (interventions : List Dict) (vectorstore : Option VectorStore)
    (query : String) : String :=
  build_prompt query (retrieve_relevant_chunks vectorstore query 4)
    (search_interventions interventions query 3)

/-- The dict `RoadSafetyRAG.generate_response` returns. -/
structure QueryResult where
  response : String
  matched_interventions : List Dict
  sources : List String
  relevant_chunks : List Document
  query : String

/-- `RoadSafetyRAG.generate_response(query)`:  retrieve chunks, match catalog
records, build the prompt, make the one LLM call, list the distinct chunk
sources (Python materialises `list(set(...))`, whose order the claims never
rely on), and attach `priority_score` to a *copy* of each matched record.
The second component of the result is `self.interventions` after the call:
the method never assigns to it, so it is the list it started from. -/
def generate_response (interventions : List Dict) (vectorstore : Option VectorStore)
    (api : String → Except String String) (query : String) : QueryResult × List Dict :=
  let relevant_chunks := retrieve_relevant_chunks vectorstore query 4
  let matched_interventions := search_interventions interventions query 3
  let prompt := build_prompt query relevant_chunks matched_interventions
  let llm_response := groq_llm_call api prompt
  let sources := (relevant_chunks.map (fun doc => doc.source)).dedup
  let scored_interventions := matched_interventions.map
    (fun inv => dictSet (dictCopy inv) "priority_score"
      (Value.nat (calculate_intervention_score inv query)))
  ({ response := llm_response,
     matched_interventions := scored_interventions,
     sources := sources,
     relevant_chunks := relevant_chunks,
     query := query }, interventions)

/-- The concrete record of the C5 counterexample: empty keyword list, empty
context, a name that contains the query word. -/
def c5_entry : Dict :=
  [("intervention", Value.str "Speed camera"),
   ("context", Value.str ""),
   ("keywords", Value.strList [])]

/-! ## Lemmas about the stable descending sort -/

theorem insertDescByScore_perm {α : Type} (a : Nat × α) (l : List (Nat × α)) :
    List.Perm (insertDescByScore a l) (a :: l) := by
  induction l with
  | nil => simp [insertDescByScore]
  | cons b t ih =>
    by_cases h : b.1 ≤ a.1
    · simp [insertDescByScore, h]
    · simp only [insertDescByScore, if_neg h]
      exact (ih.cons b).trans (List.Perm.swap a b t)

theorem sortDescByScore_perm {α : Type} (l : List (Nat × α)) :
    List.Perm (sortDescByScore l) l := by
  induction l with
  | nil => exact List.Perm.refl _
  | cons a t ih =>
    exact (insertDescByScore_perm a (sortDescByScore t)).trans (ih.cons a)

theorem mem_insertDescByScore {α : Type} {x a : Nat × α} {l : List (Nat × α)} :
    x ∈ insertDescByScore a l ↔ x = a ∨ x ∈ l := by
  rw [(insertDescByScore_perm a l).mem_iff, List.mem_cons]

theorem insertDescByScore_pairwise_desc {α : Type} {a : Nat × α} {l : List (Nat × α)}
    (hl : l.Pairwise (fun p q => q.1 ≤ p.1)) :
    (insertDescByScore a l).Pairwise (fun p q => q.1 ≤ p.1) := by
  induction l with
  | nil => simp [insertDescByScore]
  | cons b t ih =>
    rcases List.pairwise_cons.1 hl with ⟨hb, ht⟩
    by_cases h : b.1 ≤ a.1
    · simp only [insertDescByScore, if_pos h]
      refine List.pairwise_cons.2 ⟨?_, hl⟩
      intro x hx
      rcases List.mem_cons.1 hx with rfl | hx
      · exact h
      · exact (hb x hx).trans h
    · simp only [insertDescByScore, if_neg h]
      refine List.pairwise_cons.2 ⟨?_, ih ht⟩
      intro x hx
      rcases mem_insertDescByScore.1 hx with rfl | hx
      · exact Nat.le_of_lt (Nat.lt_of_not_le h)
      · exact hb x hx

theorem sortDescByScore_pairwise_desc {α : Type} (l : List (Nat × α)) :
    (sortDescByScore l).Pairwise (fun p q => q.1 ≤ p.1) := by
  induction l with
  | nil => exact List.Pairwise.nil
  | cons a t ih => exact insertDescByScore_pairwise_desc ih

theorem insertDescByScore_pairwise_stable {γ : Type} {a : Nat × Nat × γ}
    {l : List (Nat × Nat × γ)} (ha : ∀ q ∈ l, a.2.1 < q.2.1)
    (hl : l.Pairwise (fun p q => p.1 = q.1 → p.2.1 < q.2.1)) :
    (insertDescByScore a l).Pairwise (fun p q => p.1 = q.1 → p.2.1 < q.2.1) := by
  induction l with
  | nil => simp [insertDescByScore]
  | cons b t ih =>
    rcases List.pairwise_cons.1 hl with ⟨hb, ht⟩
    by_cases h : b.1 ≤ a.1
    · simp only [insertDescByScore, if_pos h]
      refine List.pairwise_cons.2 ⟨?_, hl⟩
      intro x hx _
      exact ha x hx
    · simp only [insertDescByScore, if_neg h]
      have ha' : ∀ q ∈ t, a.2.1 < q.2.1 := fun q hq => ha q (List.mem_cons_of_mem b hq)
      refine List.pairwise_cons.2 ⟨?_, ih ha' ht⟩
      intro x hx heq
      rcases mem_insertDescByScore.1 hx with rfl | hx
      · exact absurd heq.le h
      · exact hb x hx heq

theorem sortDescByScore_pairwise_stable {γ : Type} {l : List (Nat × Nat × γ)}
    (hl : l.Pairwise (fun p q => p.2.1 < q.2.1)) :
    (sortDescByScore l).Pairwise (fun p q => p.1 = q.1 → p.2.1 < q.2.1) := by
  induction l with
  | nil => exact List.Pairwise.nil
  | cons a t ih =>
    rcases List.pairwise_cons.1 hl with ⟨ha, ht⟩
    refine insertDescByScore_pairwise_stable ?_ (ih ht)
    intro q hq
    exact ha q ((sortDescByScore_perm t).mem_iff.1 hq)

theorem insertDescByScore_map {α β : Type} (f : α → β) (a : Nat × α)
    (l : List (Nat × α)) :
    (insertDescByScore a l).map (fun p => (p.1, f p.2))
      = insertDescByScore (a.1, f a.2) (l.map (fun p => (p.1, f p.2))) := by
  induction l with
  | nil => simp [insertDescByScore]
  | cons b t ih =>
    by_cases h : b.1 ≤ a.1
    · simp [insertDescByScore, h]
    · simp [insertDescByScore, h, ih]

theorem sortDescByScore_map {α β : Type} (f : α → β) (l : List (Nat × α)) :
    (sortDescByScore l).map (fun p => (p.1, f p.2))
      = sortDescByScore (l.map (fun p => (p.1, f p.2))) := by
  induction l with
  | nil => rfl
  | cons a t ih => simp only [sortDescByScore, List.map_cons, insertDescByScore_map, ih]

/-! ## Lemmas about list enumeration -/

theorem mem_enumFrom_getD {α : Type} (d : α) :
    ∀ (l : List α) (n : Nat) (p : Nat × α), p ∈ l.enumFrom n →
      n ≤ p.1 ∧ p.1 - n < l.length ∧ l.getD (p.1 - n) d = p.2 := by
  intro l
  induction l with
  | nil => intro n p hp; simp at hp
  | cons a t ih =>
    intro n p hp
    rcases List.mem_cons.1 hp with rfl | hp
    · simp
    · rcases ih (n + 1) p hp with ⟨h1, h2, h3⟩
      have hd : p.1 - n = (p.1 - (n + 1)) + 1 := by omega
      refine ⟨by omega, by simp [hd]; omega, ?_⟩
      rw [hd]
      simpa using h3

theorem mem_enum_getD {α : Type} (d : α) (l : List α) (p : Nat × α)
    (hp : p ∈ l.enum) : p.1 < l.length ∧ l.getD p.1 d = p.2 := by
  rcases mem_enumFrom_getD d l 0 p hp with ⟨_, h2, h3⟩
  rw [Nat.sub_zero] at h2 h3
  exact ⟨h2, h3⟩

theorem enumFrom_pairwise_lt {α : Type} :
    ∀ (l : List α) (n : Nat), (l.enumFrom n).Pairwise (fun p q => p.1 < q.1) := by
  intro l
  induction l with
  | nil => intro n; exact List.Pairwise.nil
  | cons a t ih =>
    intro n
    refine List.pairwise_cons.2 ⟨?_, ih (n + 1)⟩
    intro q hq
    have := (mem_enumFrom_getD a t (n + 1) q hq).1
    omega

theorem enum_pairwise_lt {α : Type} (l : List α) :
    l.enum.Pairwise (fun p q => p.1 < q.1) :=
  enumFrom_pairwise_lt l 0

theorem enumFrom_map_snd {α : Type} :
    ∀ (l : List α) (n : Nat), (l.enumFrom n).map Prod.snd = l := by
  intro l
  induction l with
  | nil => intro n; rfl
  | cons a t ih => intro n; simp only [List.enumFrom_cons, List.map_cons, ih]

/-! ## Characterising search_interventions through the indexed pipeline -/

theorem scored_filter_map_indexed (interventions : List Dict) (query : String) :
    ((interventions.enum.map (fun p => (match_score p.2 query, p))).filter
        (fun p => 0 < p.1)).map (fun p => (p.1, p.2.2))
      = (interventions.map (fun inv => (match_score inv query, inv))).filter
        (fun p => 0 < p.1) := by
  suffices h : ∀ (l : List Dict) (n : Nat),
      (((l.enumFrom n).map (fun p => (match_score p.2 query, p))).filter
          (fun p => 0 < p.1)).map (fun p => (p.1, p.2.2))
        = (l.map (fun inv => (match_score inv query, inv))).filter (fun p => 0 < p.1) by
    exact h interventions 0
  intro l
  induction l with
  | nil => intro n; rfl
  | cons inv t ih =>
    intro n
    by_cases hpos : 0 < match_score inv query
    · simp [List.filter_cons, hpos, ih]
    · simp [List.filter_cons, hpos, ih]

theorem search_interventions_eq_indexed (interventions : List Dict) (query : String)
    (k : Nat) :
    search_interventions interventions query k
      = ((search_indexed interventions query).take k).map (fun p => p.2.2) := by
  show ((sortDescByScore _).take k).map Prod.snd = _
  rw [← scored_filter_map_indexed interventions query, ← sortDescByScore_map,
    ← List.map_take, List.map_map]
  rfl

theorem mem_search_interventions {interventions : List Dict} {query : String}
    {k : Nat} {r : Dict} (h : r ∈ search_interventions interventions query k) :
    r ∈ interventions ∧ 0 < match_score r query := by
  rcases List.mem_map.1 h with ⟨p, hp, rfl⟩
  have hp' := List.mem_of_mem_take hp
  have hp'' := (sortDescByScore_perm _).mem_iff.1 hp'
  rcases List.mem_filter.1 hp'' with ⟨hmem, hpos⟩
  rcases List.mem_map.1 hmem with ⟨inv, hinv, rfl⟩
  exact ⟨hinv, by simpa using hpos⟩

/-! ## Lemmas about the dict operations -/

theorem dictGet_dictSet_same (d : Dict) (key : String) (v : Value) :
    dictGet (dictSet d key v) key = some v := by
  induction d with
  | nil => simp [dictSet, dictGet]
  | cons p rest ih =>
    by_cases h : p.1 = key
    · simp [dictSet, dictGet, h]
    · simp [dictSet, dictGet, h, ih]

theorem dictGet_dictSet_ne (d : Dict) (key : String) (v : Value) {k : String}
    (h : k ≠ key) :
    dictGet (dictSet d key v) k = dictGet d k := by
  induction d with
  | nil => simp [dictSet, dictGet, Ne.symm h]
  | cons p rest ih =>
    by_cases hp : p.1 = key
    · subst hp
      simp [dictSet, dictGet, Ne.symm h]
    · by_cases hk : p.1 = k
      · simp [dictSet, dictGet, hp, hk, h]
      · simp [dictSet, dictGet, hp, hk, h, ih]

theorem forall₂_map_self {α β : Type} {R : β → α → Prop} {f : α → β}
    {l : List α} (h : ∀ a ∈ l, R (f a) a) : List.Forall₂ R (l.map f) l := by
  induction l with
  | nil => exact List.Forall₂.nil
  | cons a t ih =>
    exact List.Forall₂.cons (h a (List.mem_cons_self a t))
      (ih fun x hx => h x (List.mem_cons_of_mem a hx))

/-! ## Lemmas about the knowledge-base build -/

theorem process_pdfs_all_failed (split_documents : List Document → List Document)
    (hsplit : split_documents [] = [])
    (pdf_loads : List (String × Except String (List Document)))
    (h : ∀ p ∈ pdf_loads, p.2.isOk = false) :
    process_pdfs split_documents pdf_loads = [] := by
  suffices hacc : ∀ (loads : List (String × Except String (List Document)))
      (acc : List Document), (∀ p ∈ loads, p.2.isOk = false) →
      loads.foldl (fun acc p =>
        match p.2 with
        | Except.ok documents => acc ++ documents.map (fun d => { d with source := p.1 })
        | Except.error _ => acc) acc = acc by
    unfold process_pdfs
    rw [hacc pdf_loads [] h]
    exact hsplit
  intro loads
  induction loads with
  | nil => intro acc _; rfl
  | cons p t ih =>
    intro acc hall
    have hp := hall p (List.mem_cons_self p t)
    have ht : ∀ q ∈ t, q.2.isOk = false := fun q hq => hall q (List.mem_cons_of_mem p hq)
    match hx : p.2 with
    | Except.ok documents => rw [hx] at hp; simp [Except.isOk, Except.toBool] at hp
    | Except.error e => simp only [List.foldl_cons, hx]; exact ih acc ht

/-! ## The claims -/

/-- C1, amended: for every intervention record and query,
`calculate_intervention_score` computes 50, +20 once for a high-priority term
in the lower-cased query, +5 per medium-priority term, +3 per intervention
keyword found in the query, +2 per distinct query word longer than 3
characters found in the lower-cased context, clamped into [1,100].  (The
claim as frozen omits the lower-casing of the context, which
`c1_counterexample` refutes.) -/
theorem c1_priority_score_formula (intervention : Dict) (query : String) :
    calculate_intervention_score intervention query
      = priority_score_amended intervention query := by
  simp only [calculate_intervention_score, priority_score_amended]
  split_ifs <;> omega

/-- C1, counterexample to the frozen wording: on the record whose context is
"Rural" and the query "rural", the code lower-cases the context and scores
52, while the computation the claim words (raw context) scores 50. -/
theorem c1_counterexample :
    calculate_intervention_score [("context", Value.str "Rural")] "rural" = 52
    ∧ priority_score_claimed [("context", Value.str "Rural")] "rural" = 50 := by
  decide

/-- C2, amended: the lexical relevance score of `search_interventions` is +2
for every keyword whose lower-cased form occurs in the lower-cased query,
plus flat +1 context and name bonuses.  (The claim as frozen tests the raw
keyword, which `c2_counterexample` refutes.) -/
theorem c2_match_score_formula (intervention : Dict) (query : String) :
    match_score intervention query = match_score_amended intervention query := by
  simp only [match_score, match_score_amended]
  omega

/-- C2, counterexample to the frozen wording: a record with keyword
"Speeding" and the query "speeding" scores 2 in the code (the keyword is
lower-cased first) but 0 under the claim's computation (raw keyword). -/
theorem c2_counterexample :
    match_score [("keywords", Value.strList ["Speeding"])] "speeding" = 2
    ∧ match_score_claimed [("keywords", Value.strList ["Speeding"])] "speeding" = 0 := by
  decide

/-- C3: `search_interventions` equals the indexed pipeline with the catalog
positions erased; every returned element carries a strictly positive score
and comes from its catalog position; the retained prefix is sorted by score
descending and, on equal scores, by catalog position ascending (stability);
the result length is `min top_k` (number of positive-score records); and the
default `top_k` is 3. -/
theorem c3_search_ordering (interventions : List Dict) (query : String) (k : Nat) :
    search_interventions interventions query k
      = ((search_indexed interventions query).take k).map (fun p => p.2.2)
    ∧ (∀ p ∈ (search_indexed interventions query).take k,
        p.2.1 < interventions.length ∧ interventions.getD p.2.1 [] = p.2.2
          ∧ p.1 = match_score p.2.2 query ∧ 0 < p.1)
    ∧ ((search_indexed interventions query).take k).Pairwise
        (fun p q => q.1 ≤ p.1 ∧ (p.1 = q.1 → p.2.1 < q.2.1))
    ∧ (search_interventions interventions query k).length
        = min k ((interventions.filter (fun inv => 0 < match_score inv query)).length)
    ∧ search_interventions interventions query = search_interventions interventions query 3 := by
  refine ⟨search_interventions_eq_indexed interventions query k, ?_, ?_, ?_, rfl⟩
  · intro p hp
    have hp' : p ∈ search_indexed interventions query := List.mem_of_mem_take hp
    have hp'' := (sortDescByScore_perm _).mem_iff.1 hp'
    rcases List.mem_filter.1 hp'' with ⟨hmem, hpos⟩
    rcases List.mem_map.1 hmem with ⟨q, hq, rfl⟩
    rcases mem_enum_getD [] interventions q hq with ⟨h1, h2⟩
    exact ⟨h1, h2, rfl, by simpa using hpos⟩
  · have hidx : ((interventions.enum.map (fun p => (match_score p.2 query, p))).filter
        (fun p => 0 < p.1)).Pairwise (fun p q => p.2.1 < q.2.1) := by
      refine List.Pairwise.filter _ ?_
      refine (List.pairwise_map).2 ?_
      simpa using enum_pairwise_lt interventions
    have hdesc := sortDescByScore_pairwise_desc
      ((interventions.enum.map (fun p => (match_score p.2 query, p))).filter
        (fun p => 0 < p.1))
    have hstab := sortDescByScore_pairwise_stable hidx
    exact List.Pairwise.sublist (List.take_sublist k _) (hdesc.and hstab)
  · show (((sortDescByScore ((interventions.map (fun inv => (match_score inv query, inv))).filter
      (fun p => 0 < p.1))).take k).map Prod.snd).length = _
    rw [List.length_map, List.length_take, (sortDescByScore_perm _).length_eq]
    congr 1
    rw [← List.countP_eq_length_filter, ← List.countP_eq_length_filter, List.countP_map]
    rfl

/-- C4: the priority score is always clamped into [1, 100]. -/
theorem c4_priority_score_in_range (intervention : Dict) (query : String) :
    1 ≤ calculate_intervention_score intervention query
    ∧ calculate_intervention_score intervention query ≤ 100 := by
  simp only [calculate_intervention_score]
  split_ifs <;> omega

/-- C10: every scoring signal adds a non-negative amount to the base 50, so
the priority score is in fact always in [50, 100] and the lower clamp to 1
never binds. -/
theorem c10_priority_score_at_least_base (intervention : Dict) (query : String) :
    50 ≤ calculate_intervention_score intervention query
    ∧ calculate_intervention_score intervention query ≤ 100 := by
  simp only [calculate_intervention_score]
  split_ifs <;> omega

/-- C5, amended: a catalog entry with an empty keyword list whose lower-cased
context contains no query word and whose lower-cased intervention name
contains no query word longer than 3 characters scores 0 and is excluded from
every `search_interventions` result.  (The claim as frozen omits the name
condition, which `c5_counterexample` refutes.) -/
theorem c5_zero_score_excluded (inv : Dict) (interventions : List Dict)
    (query : String) (k : Nat)
    (hkw : getStrList inv "keywords" = [])
    (hctx : ∀ w ∈ pySplit (pyLower query),
      strContains (pyLower (getStr inv "context")) w = false)
    (hname : ∀ w ∈ pySplit (pyLower query), 3 < w.length →
      strContains (pyLower (getStr inv "intervention")) w = false) :
    match_score inv query = 0 ∧ inv ∉ search_interventions interventions query k := by
  have h1 : ((pySplit (pyLower query)).filter (fun w => decide (3 < w.length))).any
      (fun w => strContains (pyLower (getStr inv "context")) w) = false := by
    rw [List.any_eq_false]
    intro w hw
    simp [hctx w (List.mem_of_mem_filter hw)]
  have h2 : ((pySplit (pyLower query)).filter (fun w => decide (3 < w.length))).any
      (fun w => strContains (pyLower (getStr inv "intervention")) w) = false := by
    rw [List.any_eq_false]
    intro w hw
    rcases List.mem_filter.1 hw with ⟨hw1, hw2⟩
    simp [hname w hw1 (of_decide_eq_true hw2)]
  have hscore : match_score inv query = 0 := by
    simp only [match_score, hkw, h1, h2]
    simp
  refine ⟨hscore, fun hmem => ?_⟩
  have := (mem_search_interventions hmem).2
  omega

/-- C5, counterexample to the frozen wording: `c5_entry` has an empty keyword
list and a context ("") containing no query word, yet on the query "speed"
its name gives it score 1 and `search_interventions` returns it. -/
theorem c5_counterexample :
    getStrList c5_entry "keywords" = []
    ∧ (∀ w ∈ pySplit (pyLower "speed"), strContains (getStr c5_entry "context") w = false)
    ∧ match_score c5_entry "speed" ≠ 0
    ∧ c5_entry ∈ search_interventions [c5_entry] "speed" 3 := by
  decide

/-- C5, witness: the amended theorem applied to the empty record, the query
"speed" and the one-record catalog holding that record. -/
theorem c5_witness :
    match_score ([] : Dict) "speed" = 0
    ∧ ([] : Dict) ∉ search_interventions [([] : Dict)] "speed" 3 :=
  c5_zero_score_excluded ([] : Dict) [([] : Dict)] "speed" 3 rfl (by decide) (by decide)

/-- C6: when every PDF load fails (or there are none) and the rebuild path is
taken, `build_knowledge_base` returns `false` (a value, not an exception) and
leaves no vector store, and `retrieve_relevant_chunks` on the store-less
state returns the empty list. -/
theorem c6_empty_corpus_build (split_documents : List Document → List Document)
    (pdf_loads : List (String × Except String (List Document)))
    (from_documents : List Document → VectorStore)
    (load_existing : Except String VectorStore)
    (chroma_db_nonempty force_rebuild : Bool) (query : String) (k : Nat)
    (hsplit : split_documents [] = [])
    (hload : ∀ p ∈ pdf_loads, p.2.isOk = false)
    (hpath : (force_rebuild || !chroma_db_nonempty) = true) :
    build_knowledge_base split_documents pdf_loads from_documents load_existing
        chroma_db_nonempty none force_rebuild = (false, none)
    ∧ retrieve_relevant_chunks none query k = [] := by
  refine ⟨?_, rfl⟩
  simp only [build_knowledge_base, hpath, if_true,
    process_pdfs_all_failed split_documents hsplit pdf_loads hload]
  rfl

/-- C6, witness: one unreadable PDF, no persisted index, no force flag. -/
theorem c6_witness :
    build_knowledge_base id [("report.pdf", Except.error "unreadable")]
        (fun _ => fun _ _ => Except.ok []) (Except.error "no index") false none false
      = (false, none)
    ∧ retrieve_relevant_chunks none "speeding" 4 = [] :=
  c6_empty_corpus_build id [("report.pdf", Except.error "unreadable")]
    (fun _ => fun _ _ => Except.ok []) (Except.error "no index") false false
    "speeding" 4 rfl (by decide) rfl

/-- C7: when the outbound generation call for the query's prompt fails with
any error, `generate_response` still returns a result, whose `response` field
is the error string `GroqLLM.__call__` builds; the failure never escapes the
responder. -/
theorem c7_generation_failure_contained (interventions : List Dict)
    (vectorstore : Option VectorStore) (api : String → Except String String)
    (query e : String)
    (h : api (generate_prompt interventions vectorstore query) = Except.error e) :
    (generate_response interventions vectorstore api query).1.response
      = "Error calling Groq API: " ++ e := by
  simp only [generate_prompt] at h
  simp [generate_response, groq_llm_call, h]

/-- C7, witness: an api that always reports a rate-limit failure. -/
theorem c7_witness :
    (generate_response [] none (fun _ => Except.error "rate limit") "speeding").1.response
      = "Error calling Groq API: " ++ "rate limit" :=
  c7_generation_failure_contained [] none (fun _ => Except.error "rate limit")
    "speeding" "rate limit" rfl

/-- C8: with no vector store ever built, `retrieve_relevant_chunks` returns
the empty list for every query and every k, and does not fail. -/
theorem c8_search_without_index_empty (query : String) (k : Nat) :
    retrieve_relevant_chunks none query k = [] := rfl

/-- C9: `generate_response` leaves the catalog list exactly as it was; each
returned matched intervention is the corresponding `search_interventions`
record with the one added binding `priority_score` (every other key reads the
same), and every matched record is a record of the catalog. -/
theorem c9_generate_response_preserves_catalog (interventions : List Dict)
    (vectorstore : Option VectorStore) (api : String → Except String String)
    (query : String) :
    (generate_response interventions vectorstore api query).2 = interventions
    ∧ List.Forall₂ (fun scored original =>
        dictGet scored "priority_score"
          = some (Value.nat (calculate_intervention_score original query))
        ∧ ∀ key, key ≠ "priority_score" → dictGet scored key = dictGet original key)
      (generate_response interventions vectorstore api query).1.matched_interventions
      (search_interventions interventions query 3)
    ∧ (∀ r ∈ search_interventions interventions query 3, r ∈ interventions) := by
  refine ⟨rfl, ?_, fun r hr => (mem_search_interventions hr).1⟩
  show List.Forall₂ _ ((search_interventions interventions query 3).map
    (fun inv => dictSet (dictCopy inv) "priority_score"
      (Value.nat (calculate_intervention_score inv query)))) _
  refine forall₂_map_self ?_
  intro a _
  exact ⟨dictGet_dictSet_same (dictCopy a) "priority_score" _,
    fun key hkey => dictGet_dictSet_ne (dictCopy a) "priority_score" _ hkey⟩
